import Mathlib

/-
Verification of the news CRUD service (src/app.py) against its
natural-language specification.

The service is a Flask application over a Postgres table
news(id, title, content).  We give a shallow embedding:

 - JSON values are the inductive type Json.
 - A request body is Option (List (String × Json)): none models a
   non-JSON body (request.is_json false), some fields models a parsed
   JSON object with unique keys (Flask get_json returns a dict).
 - The database is modelled abstractly as a Store: a list of rows plus
   the next auto-increment id.  The SQL statements the handlers issue
   (SELECT / INSERT ... RETURNING / UPDATE / DELETE ... RETURNING) are
   given their schema-level meaning on the Store; the store records the
   parameter values exactly as the handlers bind them.
 - Connection acquisition success, and a database-layer exception in
   the body of a handler (psycopg2 errors caught by the generic
   except-clause), are injected as explicit parameters acq and dbError,
   so each control-flow path of a handler is a case of the Lean
   function.
 - Each handler returns its response together with the resulting store
   and counters for the resource events of interest: how many times it
   called get_db_connection, conn.close, conn.commit and conn.rollback.
 - A structured abort (Flask abort(status, description), a raised
   HTTPException) is the Resp.httpError constructor; the registered
   errorhandler handle_http_exception is a function from status and
   description to the final response, and dispatch composes a handler
   outcome with it, as the framework does.
-/

namespace NewsApi

/-- JSON values, as produced by Flask request.get_json(). -/
inductive Json where
  | null : Json
  | bool : Bool → Json
  | num : Int → Json
  | str : String → Json
  | arr : List Json → Json
  | obj : List (String × Json) → Json
deriving Repr

/-- Whether a JSON value is a string: isinstance(x, str). -/
def Json.isStr : Json → Bool
  | .str _ => true
  | _ => false

/-- The four database environment variables read by get_db_connection,
each either absent (none) or set to a string value. -/
structure Env where
  db_host : Option String
  db_name : Option String
  db_user : Option String
  db_pass : Option String

/-- Python truthiness of os.environ.get: None and the empty string are
falsy, every other string is truthy. -/
def truthy : Option String → Bool
  | none => false
  | some s => !(s == "")

/-- The check `all([db_host, db_name, db_user, db_pass])` from
get_db_connection: every variable is set to a non-empty string. -/
def envOk (e : Env) : Bool :=
  truthy e.db_host && truthy e.db_name && truthy e.db_user && truthy e.db_pass

/-- retries = 5 in get_db_connection. -/
def retries : Nat := 5

/-- delay_seconds = 5 in get_db_connection. -/
def delay_seconds : Nat := 5

/-- Observable outcome of get_db_connection: the connection (none when
the function returns None), the number of psycopg2.connect attempts
made, and the list of sleep durations performed, in order. -/
structure AcqTrace where
  conn : Option Nat
  attempts : Nat
  sleeps : List Nat
deriving Repr, DecidableEq

/-- The retry loop of get_db_connection.  connect is the oracle for
psycopg2.connect: connect k is some c when the k-th attempt opens
connection c, and none when it raises OperationalError.  attempt is the
1-based index of the next attempt, and the second argument is the
number of attempts remaining; the loop sleeps delay_seconds after a
failed attempt only when `attempt < retries` (that is, when further
attempts remain). -/
def connAttempts (connect : Nat → Option Nat) : Nat → Nat → AcqTrace
  | _, 0 => ⟨none, 0, []⟩
  | attempt, n + 1 =>
    match connect attempt with
    | some c => ⟨some c, 1, []⟩
    | none =>
      if n = 0 then ⟨none, 1, []⟩
      else
        let r := connAttempts connect (attempt + 1) n
        ⟨r.conn, r.attempts + 1, delay_seconds :: r.sleeps⟩

/-- get_db_connection from src/app.py: if the truthiness check on the
four environment variables fails, return None immediately with no
attempt; otherwise run the retry loop for `retries` attempts starting
at attempt 1. -/
def get_db_connection (env : Env) (connect : Nat → Option Nat) : AcqTrace :=
  if envOk env then connAttempts connect 1 retries else ⟨none, 0, []⟩

/-- Python str.strip() with no argument: remove leading and trailing
whitespace characters. -/
def pyStrip (s : String) : String :=
  String.mk (((s.data.dropWhile Char.isWhitespace).reverse.dropWhile
    Char.isWhitespace).reverse)

/-- A row of the news table: id, title, content.  title and content are
stored as whatever parameter values the handlers bind into the SQL
statements; the create handler only ever binds a string title, while
the update handler binds arbitrary JSON values unchecked. -/
structure Row where
  id : Nat
  title : Json
  content : Json

/-- The news table: its rows together with the next auto-increment id. -/
structure Store where
  rows : List Row
  nextId : Nat

/-- A handler outcome before the framework error handler runs: either a
normal return `jsonify(body), status`, or a structured abort
(`abort(status, description)` raising an HTTPException that propagates
out of the handler). -/
inductive Resp where
  | json : Nat → Json → Resp
  | httpError : Nat → String → Resp

/-- HTTP status of a handler outcome. -/
def Resp.status : Resp → Nat
  | .json st _ => st
  | .httpError st _ => st

/-- Result of running one handler: its outcome, the resulting store,
and counters for get_db_connection calls, conn.close calls,
conn.commit calls and conn.rollback calls made during the run. -/
structure HResult where
  resp : Resp
  store : Store
  acquires : Nat
  closes : Nat
  commits : Nat
  rollbacks : Nat

/-- The body `jsonify(\x7b"error": msg\x7d)`. -/
def errBody (msg : String) : Json :=
  .obj [("error", .str msg)]

/-- A row as the JSON object the handlers return. -/
def rowJson (r : Row) : Json :=
  .obj [("id", .num r.id), ("title", r.title), ("content", r.content)]

/-- SELECT ... FROM news WHERE id = %s: the row with the given id, if
any (id is the primary key, so ids are unique). -/
def findRow (i : Nat) (s : Store) : Option Row :=
  s.rows.find? (fun r => r.id == i)

/-- db_health_check from src/app.py.  acq tells whether
get_db_connection returns a connection; the close call sits in a
try/except-pass, modelled as one close call. -/
def db_health_check (acq : Bool) (s : Store) : HResult :=
  if !acq then
    ⟨.json 500 (.obj [("status", .str "error"),
                      ("message", .str "Database connection failed")]), s, 1, 0, 0, 0⟩
  else
    ⟨.json 200 (.obj [("status", .str "ok"),
                      ("message", .str "Database connection successful")]), s, 1, 1, 0, 0⟩

/-- index from src/app.py: the static endpoint directory.  It never
touches the database. -/
def index (s : Store) : HResult :=
  ⟨.json 200 (.obj [("message", .str "Welcome to the News API (with Postgres)!"),
      ("endpoints", .obj [("list_all_news", .str "GET /news"),
                          ("create_news", .str "POST /news"),
                          ("update_news", .str "PUT /news/<id>"),
                          ("delete_news", .str "DELETE /news/<id>"),
                          ("db_health", .str "GET /db-health")])]), s, 0, 0, 0, 0⟩

/-- list_news from src/app.py.  dbError injects a database exception in
the SELECT (caught by the generic except-clause: 500 with the message,
no rollback in this handler); the connection is closed in the finally
block on both paths. -/
def list_news (acq : Bool) (dbError : Option String) (s : Store) : HResult :=
  if !acq then ⟨.json 500 (errBody "Database connection failed"), s, 1, 0, 0, 0⟩
  else
    match dbError with
    | some m => ⟨.json 500 (errBody m), s, 1, 1, 0, 0⟩
    | none =>
      ⟨.json 200 (.obj [("count", .num s.rows.length),
                        ("items", .arr (s.rows.map rowJson))]), s, 1, 1, 0, 0⟩

/-- create_news from src/app.py.  body is none when request.is_json is
false.  Validation mirrors the source condition: abort 400 unless
"title" is present, a string, and non-empty after strip(); both aborts
happen before get_db_connection is called.  On success the INSERT
appends a row with the trimmed title and the content value
payload.get("content", ""), RETURNING the assigned id, then commit. -/
def create_news (body : Option (List (String × Json))) (acq : Bool)
    (dbError : Option String) (s : Store) : HResult :=
  match body with
  | none => ⟨.httpError 400 "Request must be JSON", s, 0, 0, 0, 0⟩
  | some payload =>
    match payload.lookup "title" with
    | some (.str t) =>
      if pyStrip t = "" then
        ⟨.httpError 400 "Missing or invalid 'title' field", s, 0, 0, 0, 0⟩
      else
        let title := pyStrip t
        let content := (payload.lookup "content").getD (.str "")
        if !acq then ⟨.json 500 (errBody "Database connection failed"), s, 1, 0, 0, 0⟩
        else
          match dbError with
          | some m => ⟨.json 500 (errBody m), s, 1, 1, 0, 1⟩
          | none =>
            let newId := s.nextId
            ⟨.json 201 (.obj [("id", .num newId), ("title", .str title),
                              ("content", content)]),
             ⟨s.rows ++ [⟨newId, .str title, content⟩], s.nextId + 1⟩, 1, 1, 1, 0⟩
    | _ => ⟨.httpError 400 "Missing or invalid 'title' field", s, 0, 0, 0, 0⟩

/-- update_news from src/app.py.  The JSON check aborts 400 before any
database access.  Inside the try block: the SELECT either raises
(dbError, generic catch: rollback + 500, close in finally), or yields
no row (abort 404, re-raised past the generic catch by the
HTTPException arm, close in finally), or yields the current row, over
which the supplied fields are merged via payload.get with the current
values as defaults — no validation of either field — then UPDATE and
commit. -/
def update_news (item_id : Nat) (body : Option (List (String × Json)))
    (acq : Bool) (dbError : Option String) (s : Store) : HResult :=
  match body with
  | none => ⟨.httpError 400 "Request must be JSON", s, 0, 0, 0, 0⟩
  | some payload =>
    if !acq then ⟨.json 500 (errBody "Database connection failed"), s, 1, 0, 0, 0⟩
    else
      match dbError with
      | some m => ⟨.json 500 (errBody m), s, 1, 1, 0, 1⟩
      | none =>
        match findRow item_id s with
        | none => ⟨.httpError 404 "Item not found", s, 1, 1, 0, 0⟩
        | some row =>
          let title := (payload.lookup "title").getD row.title
          let content := (payload.lookup "content").getD row.content
          ⟨.json 200 (.obj [("id", .num item_id), ("title", title),
                            ("content", content)]),
           ⟨s.rows.map (fun r => if r.id == item_id then ⟨r.id, title, content⟩ else r),
            s.nextId⟩, 1, 1, 1, 0⟩

/-- delete_news from src/app.py.  DELETE ... RETURNING id either raises
(dbError: rollback + 500), returns no row (abort 404, re-raised past
the generic catch, close in finally, no commit so the store is
unchanged), or returns the id: the row is removed and the transaction
committed. -/
def delete_news (item_id : Nat) (acq : Bool) (dbError : Option String)
    (s : Store) : HResult :=
  if !acq then ⟨.json 500 (errBody "Database connection failed"), s, 1, 0, 0, 0⟩
  else
    match dbError with
    | some m => ⟨.json 500 (errBody m), s, 1, 1, 0, 1⟩
    | none =>
      match findRow item_id s with
      | none => ⟨.httpError 404 "Item not found", s, 1, 1, 0, 0⟩
      | some _ =>
        ⟨.json 200 (.obj [("status", .str "deleted"), ("id", .num item_id)]),
         ⟨s.rows.filter (fun r => !(r.id == item_id)), s.nextId⟩, 1, 1, 1, 0⟩

/-- The final HTTP response the framework emits: status, JSON body,
content type. -/
structure Final where
  status : Nat
  body : Json
  contentType : String

/-- handle_http_exception from src/app.py, the registered errorhandler
for HTTPException: it keeps the status code of the abort and replaces
the body with `jsonify(\x7b"error": e.description\x7d)` under
content-type application/json. -/
def handle_http_exception (status : Nat) (description : String) : Final :=
  ⟨status, errBody description, "application/json"⟩

/-- The framework pipeline around a handler: a normal jsonify return
goes out as-is with the JSON content type; a propagating HTTPException
is turned into the final response by handle_http_exception. -/
def dispatch (r : HResult) : Final :=
  match r.resp with
  | .json st b => ⟨st, b, "application/json"⟩
  | .httpError st d => handle_http_exception st d

/-- A title value is a non-empty string. -/
def titleOk : Json → Bool
  | .str t => !(t == "")
  | _ => false

/-- Every row of the store has a non-empty string title. -/
def storeOk (s : Store) : Bool :=
  s.rows.all (fun r => titleOk r.title)

/-- One data-path operation against the store, with its injected
connection-acquisition and database-exception outcomes. -/
inductive Op where
  | createOp : Option (List (String × Json)) → Bool → Option String → Op
  | updateOp : Nat → Option (List (String × Json)) → Bool → Option String → Op
  | deleteOp : Nat → Bool → Option String → Op

/-- Store effect of one operation. -/
def applyOp (s : Store) : Op → Store
  | .createOp b a e => (create_news b a e s).store
  | .updateOp i b a e => (update_news i b a e s).store
  | .deleteOp i a e => (delete_news i a e s).store

/-- Store after a sequence of operations. -/
def runOps (s : Store) : List Op → Store
  | [] => s
  | op :: rest => runOps (applyOp s op) rest

/-- An operation whose request body never sets title to an empty or
non-string value: creates and deletes are unrestricted, an update body
must either be non-JSON, omit the title field, or supply a non-empty
string title. -/
def opTitleOk : Op → Bool
  | .createOp _ _ _ => true
  | .deleteOp _ _ _ => true
  | .updateOp _ body _ _ =>
    match body with
    | none => true
    | some p =>
      match p.lookup "title" with
      | none => true
      | some j => titleOk j

/-- The store reached from an empty table by a create of title "Hello"
followed by an update of item 1 whose body sets title to the empty
string. -/
def emptyTitleStore : Store :=
  runOps ⟨[], 1⟩
    [.createOp (some [("title", .str "Hello")]) true none,
     .updateOp 1 (some [("title", .str "")]) true none]

theorem connAttempts_attempts_le (connect : Nat → Option Nat) :
    ∀ (n attempt : Nat), (connAttempts connect attempt n).attempts ≤ n := by
  intro n
  induction n with
  | zero => intro attempt; simp [connAttempts]
  | succ m ih =>
    intro attempt
    simp only [connAttempts]
    cases connect attempt with
    | some c => simp
    | none =>
      by_cases hm : m = 0
      · simp [hm]
      · simp only [if_neg hm]
        have := ih (attempt + 1)
        omega

theorem connAttempts_attempts_pos (connect : Nat → Option Nat)
    (n attempt : Nat) (hn : 1 ≤ n) :
    1 ≤ (connAttempts connect attempt n).attempts := by
  cases n with
  | zero => omega
  | succ m =>
    simp only [connAttempts]
    cases connect attempt with
    | some c => simp
    | none =>
      by_cases hm : m = 0
      · simp [hm]
      · simp only [if_neg hm]; omega

theorem connAttempts_sleeps_eq (connect : Nat → Option Nat) :
    ∀ (n attempt : Nat),
      (connAttempts connect attempt n).sleeps =
        List.replicate ((connAttempts connect attempt n).attempts - 1) delay_seconds := by
  intro n
  induction n with
  | zero => intro attempt; simp [connAttempts]
  | succ m ih =>
    intro attempt
    simp only [connAttempts]
    cases connect attempt with
    | some c => simp
    | none =>
      by_cases hm : m = 0
      · simp [hm]
      · simp only [if_neg hm]
        have hpos : 1 ≤ (connAttempts connect (attempt + 1) m).attempts :=
          connAttempts_attempts_pos connect m (attempt + 1) (by omega)
        have heq := ih (attempt + 1)
        simp only [heq]
        have hrw : (connAttempts connect (attempt + 1) m).attempts - 1 + 1 =
            (connAttempts connect (attempt + 1) m).attempts := by omega
        rw [show (connAttempts connect (attempt + 1) m).attempts + 1 - 1 =
              (connAttempts connect (attempt + 1) m).attempts - 1 + 1 from by omega,
            List.replicate_succ]

theorem connAttempts_success (connect : Nat → Option Nat) :
    ∀ (n attempt k : Nat) (c : Nat), attempt ≤ k → k < attempt + n →
      (∀ j, attempt ≤ j → j < k → connect j = none) → connect k = some c →
      connAttempts connect attempt n =
        ⟨some c, k - attempt + 1, List.replicate (k - attempt) delay_seconds⟩ := by
  intro n
  induction n with
  | zero => intro attempt k c h1 h2 _ _; omega
  | succ m ih =>
    intro attempt k c h1 h2 hfail hk
    simp only [connAttempts]
    by_cases hak : attempt = k
    · subst hak
      rw [hk]
      simp
    · have hlt : attempt < k := by omega
      have hfa : connect attempt = none := hfail attempt (le_refl _) hlt
      rw [hfa]
      have hm : m ≠ 0 := by omega
      simp only [if_neg hm]
      have := ih (attempt + 1) k c (by omega) (by omega)
        (fun j hj1 hj2 => hfail j (by omega) hj2) hk
      rw [this]
      rw [show k - attempt + 1 = k - (attempt + 1) + 1 + 1 from by omega,
          show k - attempt = k - (attempt + 1) + 1 from by omega,
          List.replicate_succ]

theorem connAttempts_all_fail (connect : Nat → Option Nat) :
    ∀ (n attempt : Nat), 1 ≤ n →
      (∀ j, attempt ≤ j → j < attempt + n → connect j = none) →
      connAttempts connect attempt n =
        ⟨none, n, List.replicate (n - 1) delay_seconds⟩ := by
  intro n
  induction n with
  | zero => intro attempt h; omega
  | succ m ih =>
    intro attempt _ hfail
    simp only [connAttempts]
    rw [hfail attempt (le_refl _) (by omega)]
    by_cases hm : m = 0
    · simp [hm]
    · simp only [if_neg hm]
      rw [ih (attempt + 1) (by omega) (fun j hj1 hj2 => hfail j (by omega) (by omega))]
      rw [show m + 1 - 1 = (m - 1) + 1 from by omega, List.replicate_succ]

/-- C1 (amended): when all four database environment variables are set
to non-empty strings, get_db_connection makes at most 5 connection
attempts; the sleeps it performs are exactly one fixed delay_seconds
sleep after each failed attempt but the last (no exponential backoff,
no jitter); it returns the connection of the first successful attempt,
having made exactly that many attempts; and when all 5 attempts fail
it returns the failure value none after exactly 5 attempts and 4
sleeps.  When any of the four variables is absent or set to the empty
string, it fails immediately with no connection attempt and no sleep. -/
theorem get_db_connection_spec (env : Env) (connect : Nat → Option Nat) :
    (envOk env = true →
      (get_db_connection env connect).attempts ≤ retries
      ∧ (get_db_connection env connect).sleeps =
          List.replicate ((get_db_connection env connect).attempts - 1) delay_seconds
      ∧ (∀ k c, 1 ≤ k → k ≤ retries → (∀ j, 1 ≤ j → j < k → connect j = none) →
            connect k = some c →
            get_db_connection env connect =
              ⟨some c, k, List.replicate (k - 1) delay_seconds⟩)
      ∧ ((∀ j, 1 ≤ j → j ≤ retries → connect j = none) →
            get_db_connection env connect =
              ⟨none, retries, List.replicate (retries - 1) delay_seconds⟩))
    ∧ (envOk env = false → get_db_connection env connect = ⟨none, 0, []⟩) := by
  have hr : retries = 5 := rfl
  constructor
  · intro hok
    simp only [get_db_connection, hok, if_true]
    refine ⟨connAttempts_attempts_le connect retries 1,
            connAttempts_sleeps_eq connect retries 1, ?_, ?_⟩
    · intro k c hk1 hk5 hfail hkc
      have h := connAttempts_success connect retries 1 k c hk1 (by omega)
        (fun j hj1 hj2 => hfail j hj1 hj2) hkc
      rw [h, show k - 1 + 1 = k from by omega]
    · intro hfail
      exact connAttempts_all_fail connect retries 1 (by omega)
        (fun j hj1 hj2 => hfail j hj1 (by omega))
  · intro hbad
    simp [get_db_connection, hbad]

/-- C1 counterexample to the claim as stated: with DB_HOST set to the
empty string — so all four environment variables are set — and a
connect oracle whose very first attempt would succeed, get_db_connection
still returns the failure value having made zero connection attempts,
against the claim that whenever the four variables are set the open
connection of the first successful attempt is returned. -/
theorem get_db_connection_claim_counterexample :
    (Env.mk (some "") (some "newsdb") (some "user") (some "pass")).db_host.isSome = true
    ∧ (Env.mk (some "") (some "newsdb") (some "user") (some "pass")).db_name.isSome = true
    ∧ (Env.mk (some "") (some "newsdb") (some "user") (some "pass")).db_user.isSome = true
    ∧ (Env.mk (some "") (some "newsdb") (some "user") (some "pass")).db_pass.isSome = true
    ∧ (fun _ : Nat => some 0) 1 = some 0
    ∧ get_db_connection (Env.mk (some "") (some "newsdb") (some "user") (some "pass"))
        (fun _ => some 0) = ⟨none, 0, []⟩ :=
  ⟨rfl, rfl, rfl, rfl, rfl, by decide⟩

/-- Witness for get_db_connection_spec: with a fully set environment
and an oracle that fails twice then succeeds on attempt 3, the
connection is returned after 3 attempts and two 5-second sleeps; with
DB_PASS absent the same oracle yields immediate failure. -/
theorem get_db_connection_spec_witness :
    get_db_connection (Env.mk (some "db") (some "newsdb") (some "user") (some "pass"))
        (fun k => if k == 3 then some 7 else none) =
      ⟨some 7, 3, List.replicate 2 delay_seconds⟩
    ∧ get_db_connection (Env.mk (some "db") (some "newsdb") (some "user") none)
        (fun k => if k == 3 then some 7 else none) = ⟨none, 0, []⟩ := by
  constructor
  · exact ((get_db_connection_spec
        (Env.mk (some "db") (some "newsdb") (some "user") (some "pass"))
        (fun k => if k == 3 then some 7 else none)).1 (by decide)).2.2.1 3 7
      (by decide) (by decide) (by intro j h1 h2; interval_cases j <;> rfl) rfl
  · exact (get_db_connection_spec
        (Env.mk (some "db") (some "newsdb") (some "user") none)
        (fun k => if k == 3 then some 7 else none)).2 (by decide)

theorem storeOk_create (b : Option (List (String × Json))) (a : Bool)
    (e : Option String) (s : Store) (hs : storeOk s = true) :
    storeOk (create_news b a e s).store = true := by
  match b with
  | none => exact hs
  | some p =>
    cases hl : p.lookup "title" with
    | none => simp [create_news, hl, hs]
    | some j =>
      cases j with
      | str t =>
        by_cases ht : pyStrip t = ""
        · simp [create_news, hl, ht, hs]
        · cases a with
          | false => simp [create_news, hl, ht, hs]
          | true =>
            cases e with
            | some m => simp [create_news, hl, ht, hs]
            | none =>
              simp only [create_news, hl, if_neg ht, Bool.not_true,
                Bool.false_eq_true, if_false]
              simp only [storeOk, List.all_append, List.all_cons, List.all_nil,
                Bool.and_true, Bool.and_eq_true] at hs ⊢
              refine ⟨hs, ?_⟩
              simp [titleOk, ht]
      | null => simp [create_news, hl, hs]
      | bool x => simp [create_news, hl, hs]
      | num x => simp [create_news, hl, hs]
      | arr x => simp [create_news, hl, hs]
      | obj x => simp [create_news, hl, hs]

theorem storeOk_update (i : Nat) (b : Option (List (String × Json))) (a : Bool)
    (e : Option String) (s : Store) (hs : storeOk s = true)
    (hb : opTitleOk (.updateOp i b a e) = true) :
    storeOk (update_news i b a e s).store = true := by
  match b with
  | none => exact hs
  | some p =>
    cases a with
    | false => exact hs
    | true =>
      cases e with
      | some m => exact hs
      | none =>
        cases hf : findRow i s with
        | none => simp [update_news, hf, hs]
        | some row =>
          have hrowmem : row ∈ s.rows := List.mem_of_find?_eq_some hf
          have hrowOk : titleOk row.title = true := by
            simp only [storeOk, List.all_eq_true] at hs
            exact hs row hrowmem
          have htitle : titleOk ((p.lookup "title").getD row.title) = true := by
            cases hl : p.lookup "title" with
            | none => simpa using hrowOk
            | some j =>
              simp only [opTitleOk, hl] at hb
              simpa using hb
          simp only [update_news, hf]
          simp only [storeOk, List.all_eq_true] at hs ⊢
          intro x hx
          rcases List.mem_map.mp hx with ⟨y, hy, rfl⟩
          by_cases hid : y.id == i
          · simp only [hid, if_true]
            exact htitle
          · simp only [hid, Bool.false_eq_true, if_false]
            exact hs y hy

theorem storeOk_delete (i : Nat) (a : Bool) (e : Option String) (s : Store)
    (hs : storeOk s = true) :
    storeOk (delete_news i a e s).store = true := by
  cases a with
  | false => exact hs
  | true =>
    cases e with
    | some m => exact hs
    | none =>
      cases hf : findRow i s with
      | none => simp [delete_news, hf, hs]
      | some r =>
        simp only [delete_news, hf]
        simp only [storeOk, List.all_eq_true] at hs ⊢
        intro x hx
        exact hs x (List.mem_of_mem_filter hx)

/-- C2 (amended): the non-empty-title invariant holds for every
sequence of create, update and delete operations in which no update
request body sets title to an empty or non-string value: starting from
any store whose rows all have non-empty string titles, every NewsItem
persisted after the sequence still has a non-empty string title.
Create enforces this on its own (it rejects empty trimmed titles), but
the update handler copies a supplied title into the row with no
validation, so the restriction on update bodies is needed: an update
body supplying an empty title persists an empty title. -/
theorem news_title_invariant (ops : List Op) :
    ∀ s : Store, storeOk s = true → ops.all opTitleOk = true →
      storeOk (runOps s ops) = true := by
  induction ops with
  | nil => intro s hs _; exact hs
  | cons op rest ih =>
    intro s hs hops
    simp only [List.all_cons, Bool.and_eq_true] at hops
    simp only [runOps]
    refine ih (applyOp s op) ?_ hops.2
    match op with
    | .createOp b a e => exact storeOk_create b a e s hs
    | .updateOp i b a e => exact storeOk_update i b a e s hs hops.1
    | .deleteOp i a e => exact storeOk_delete i a e s hs

/-- C2 counterexample to the claim as stated: starting from the empty
store, the sequence "create with title Hello, then update item 1 with
a body setting title to the empty string" leaves the store holding a
NewsItem whose title is the empty string, and the update request is
answered 200, not rejected — so an update request can leave a
persisted item with an empty title. -/
theorem news_title_invariant_counterexample :
    emptyTitleStore.rows = [⟨1, .str "", .str ""⟩]
    ∧ storeOk emptyTitleStore = false
    ∧ (update_news 1 (some [("title", .str "")]) true none
        ⟨[⟨1, .str "Hello", .str ""⟩], 2⟩).resp.status = 200 :=
  ⟨rfl, rfl, rfl⟩

/-- Witness for news_title_invariant: a create (with surrounding
whitespace in the title), an update touching only content, and a
delete, run from the empty store, keep every persisted title a
non-empty string. -/
theorem news_title_invariant_witness :
    storeOk (runOps ⟨[], 1⟩
      [.createOp (some [("title", .str " Hi ")]) true none,
       .updateOp 1 (some [("content", .num 5)]) true none,
       .deleteOp 2 true none]) = true :=
  news_title_invariant _ ⟨[], 1⟩ rfl rfl

/-- C3: partial update.  For an existing item r with id X and any JSON
object body, PUT /news/X reads the existing row and writes the merge of
the supplied fields over the existing values — title is the body title
when present and the stored title otherwise, likewise content — then
answers 200 with the merged item; in particular every field not present
in the body keeps its prior stored value. -/
theorem update_news_merges_fields (s : Store) (X : Nat) (r : Row)
    (payload : List (String × Json)) (hfind : findRow X s = some r) :
    update_news X (some payload) true none s =
      ⟨.json 200 (.obj [("id", .num X),
                        ("title", (payload.lookup "title").getD r.title),
                        ("content", (payload.lookup "content").getD r.content)]),
       ⟨s.rows.map (fun row => if row.id == X then
           ⟨row.id, (payload.lookup "title").getD r.title,
            (payload.lookup "content").getD r.content⟩ else row), s.nextId⟩,
       1, 1, 1, 0⟩ := by
  simp [update_news, hfind]

/-- Witness for update_news_merges_fields: a body carrying only content
"x" preserves the existing title "Old". -/
theorem update_news_merges_fields_witness :
    update_news 1 (some [("content", .str "x")]) true none
        ⟨[⟨1, .str "Old", .str "c"⟩], 2⟩ =
      ⟨.json 200 (.obj [("id", .num 1), ("title", .str "Old"), ("content", .str "x")]),
       ⟨[⟨1, .str "Old", .str "x"⟩], 2⟩, 1, 1, 1, 0⟩ :=
  update_news_merges_fields ⟨[⟨1, .str "Old", .str "c"⟩], 2⟩ 1
    ⟨1, .str "Old", .str "c"⟩ [("content", .str "x")] rfl

/-- C4: deleting an absent id produces exactly a 404 JSON error
response through the error handler (never a 500), leaves the store
unchanged and commits nothing; deleting a present id removes that row,
commits once, and answers 200 with status deleted and the id. -/
theorem delete_news_spec (s : Store) (i : Nat) :
    (findRow i s = none →
      dispatch (delete_news i true none s) =
          ⟨404, errBody "Item not found", "application/json"⟩
        ∧ (delete_news i true none s).store = s
        ∧ (delete_news i true none s).commits = 0)
    ∧ (∀ r, findRow i s = some r →
        delete_news i true none s =
          ⟨.json 200 (.obj [("status", .str "deleted"), ("id", .num i)]),
           ⟨s.rows.filter (fun row => !(row.id == i)), s.nextId⟩, 1, 1, 1, 0⟩) := by
  constructor
  · intro hf
    refine ⟨?_, ?_, ?_⟩ <;> simp [delete_news, hf, dispatch, handle_http_exception]
  · intro r hf
    simp [delete_news, hf]

/-- Witness for delete_news_spec: deleting id 7 from a store holding
only id 1 answers 404 and changes nothing; deleting id 1 removes the
row and answers 200. -/
theorem delete_news_spec_witness :
    dispatch (delete_news 7 true none ⟨[⟨1, .str "Hello", .str ""⟩], 2⟩) =
      ⟨404, errBody "Item not found", "application/json"⟩
    ∧ delete_news 1 true none ⟨[⟨1, .str "Hello", .str ""⟩], 2⟩ =
      ⟨.json 200 (.obj [("status", .str "deleted"), ("id", .num 1)]),
       ⟨[], 2⟩, 1, 1, 1, 0⟩ :=
  ⟨((delete_news_spec ⟨[⟨1, .str "Hello", .str ""⟩], 2⟩ 7).1 rfl).1,
   (delete_news_spec ⟨[⟨1, .str "Hello", .str ""⟩], 2⟩ 1).2 ⟨1, .str "Hello", .str ""⟩ rfl⟩

/-- C5: create validation.  Whenever the request body is not JSON, or
the title field is missing, not a string, or empty after stripping
whitespace (including a whitespace-only title), POST /news answers 400
through the error handler, creates no row, and makes zero
get_db_connection calls — validation short-circuits before any
database connection is acquired — whatever the connection-acquisition
and database outcomes would have been. -/
theorem create_news_validation (s : Store) (acq : Bool) (e : Option String) :
    ((create_news none acq e s).store = s
      ∧ (create_news none acq e s).acquires = 0
      ∧ dispatch (create_news none acq e s) =
          ⟨400, errBody "Request must be JSON", "application/json"⟩)
    ∧ (∀ p : List (String × Json),
        (p.lookup "title" = none
          ∨ (∃ j, p.lookup "title" = some j ∧ j.isStr = false)
          ∨ (∃ t, p.lookup "title" = some (.str t) ∧ pyStrip t = "")) →
        (create_news (some p) acq e s).store = s
          ∧ (create_news (some p) acq e s).acquires = 0
          ∧ dispatch (create_news (some p) acq e s) =
              ⟨400, errBody "Missing or invalid 'title' field", "application/json"⟩) := by
  constructor
  · exact ⟨rfl, rfl, rfl⟩
  · intro p hp
    rcases hp with h | ⟨j, hj, hjs⟩ | ⟨t, ht, hts⟩
    · refine ⟨?_, ?_, ?_⟩ <;> simp [create_news, h, dispatch, handle_http_exception]
    · cases j with
      | str u => simp [Json.isStr] at hjs
      | null =>
        refine ⟨?_, ?_, ?_⟩ <;> simp [create_news, hj, dispatch, handle_http_exception]
      | bool x =>
        refine ⟨?_, ?_, ?_⟩ <;> simp [create_news, hj, dispatch, handle_http_exception]
      | num x =>
        refine ⟨?_, ?_, ?_⟩ <;> simp [create_news, hj, dispatch, handle_http_exception]
      | arr x =>
        refine ⟨?_, ?_, ?_⟩ <;> simp [create_news, hj, dispatch, handle_http_exception]
      | obj x =>
        refine ⟨?_, ?_, ?_⟩ <;> simp [create_news, hj, dispatch, handle_http_exception]
    · refine ⟨?_, ?_, ?_⟩ <;> simp [create_news, ht, hts, dispatch, handle_http_exception]

/-- Witness for create_news_validation: a whitespace-only title is
rejected with 400, creates no row and acquires no connection. -/
theorem create_news_validation_witness :
    (create_news (some [("title", .str "   ")]) true none ⟨[], 1⟩).store = ⟨[], 1⟩
    ∧ (create_news (some [("title", .str "   ")]) true none ⟨[], 1⟩).acquires = 0
    ∧ dispatch (create_news (some [("title", .str "   ")]) true none ⟨[], 1⟩) =
        ⟨400, errBody "Missing or invalid 'title' field", "application/json"⟩ :=
  (create_news_validation ⟨[], 1⟩ true none).2 [("title", .str "   ")]
    (Or.inr (Or.inr ⟨"   ", rfl, rfl⟩))

/-- C6: when connection acquisition fails, GET /news, POST /news (with
a body passing validation), PUT /news/id (with a JSON body) and
DELETE /news/id all answer 500 with the error body Database connection
failed; GET /db-health answers 500 with the matching status-error
shape; and GET / still answers 200 regardless of database state. -/
theorem connection_failure_responses (s : Store) (i : Nat) (e : Option String) :
    dispatch (list_news false e s) =
        ⟨500, errBody "Database connection failed", "application/json"⟩
    ∧ (∀ (p : List (String × Json)) (t : String),
        p.lookup "title" = some (.str t) → pyStrip t ≠ "" →
        dispatch (create_news (some p) false e s) =
          ⟨500, errBody "Database connection failed", "application/json"⟩)
    ∧ (∀ p : List (String × Json),
        dispatch (update_news i (some p) false e s) =
          ⟨500, errBody "Database connection failed", "application/json"⟩)
    ∧ dispatch (delete_news i false e s) =
        ⟨500, errBody "Database connection failed", "application/json"⟩
    ∧ dispatch (db_health_check false s) =
        ⟨500, .obj [("status", .str "error"),
                    ("message", .str "Database connection failed")], "application/json"⟩
    ∧ (dispatch (index s)).status = 200 := by
  refine ⟨rfl, ?_, fun p => rfl, rfl, rfl, rfl⟩
  intro p t hp ht
  simp [create_news, hp, ht, dispatch]

/-- Witness for connection_failure_responses: a valid create request
against an unreachable database answers 500 with the uniform error
body. -/
theorem connection_failure_responses_witness :
    dispatch (create_news (some [("title", .str "Hello")]) false none ⟨[], 1⟩) =
      ⟨500, errBody "Database connection failed", "application/json"⟩ :=
  (connection_failure_responses ⟨[], 1⟩ 1 none).2.1 [("title", .str "Hello")] "Hello"
    rfl (by decide)

/-- C7: structured aborts bypass the generic catch and are uniformly
translated.  Every abort site in the handlers yields the structured
abort outcome with its original status code and description and zero
rollbacks — the generic except-clause, which would roll back and
answer 500, is not taken, the update and delete handlers re-raising
HTTPException explicitly — and the error handler rewrites any
structured abort to the body error-description under content-type
application/json, preserving the original status code. -/
theorem structured_aborts_translated :
    (∀ st d, handle_http_exception st d = ⟨st, errBody d, "application/json"⟩)
    ∧ (∀ (r : HResult) (st : Nat) (d : String), r.resp = .httpError st d →
        dispatch r = ⟨st, errBody d, "application/json"⟩)
    ∧ (∀ s acq e, create_news none acq e s =
        ⟨.httpError 400 "Request must be JSON", s, 0, 0, 0, 0⟩)
    ∧ (∀ s acq e (p : List (String × Json)), p.lookup "title" = none →
        create_news (some p) acq e s =
          ⟨.httpError 400 "Missing or invalid 'title' field", s, 0, 0, 0, 0⟩)
    ∧ (∀ s acq e i, update_news i none acq e s =
        ⟨.httpError 400 "Request must be JSON", s, 0, 0, 0, 0⟩)
    ∧ (∀ s i (p : List (String × Json)), findRow i s = none →
        update_news i (some p) true none s =
          ⟨.httpError 404 "Item not found", s, 1, 1, 0, 0⟩)
    ∧ (∀ s i, findRow i s = none →
        delete_news i true none s =
          ⟨.httpError 404 "Item not found", s, 1, 1, 0, 0⟩) := by
  refine ⟨fun st d => rfl, ?_, fun s acq e => rfl, ?_, fun s acq e i => rfl, ?_, ?_⟩
  · intro r st d h
    simp [dispatch, h, handle_http_exception]
  · intro s acq e p hp
    simp [create_news, hp]
  · intro s i p hf
    simp [update_news, hf]
  · intro s i hf
    simp [delete_news, hf]

/-- Witness for structured_aborts_translated: the not-found abort of
the update handler at id 3 on the empty store, with its translation. -/
theorem structured_aborts_translated_witness :
    update_news 3 (some []) true none ⟨[], 1⟩ =
      ⟨.httpError 404 "Item not found", ⟨[], 1⟩, 1, 1, 0, 0⟩
    ∧ dispatch (update_news 3 (some []) true none ⟨[], 1⟩) =
      ⟨404, errBody "Item not found", "application/json"⟩ :=
  ⟨structured_aborts_translated.2.2.2.2.2.1 ⟨[], 1⟩ 3 [] rfl,
   structured_aborts_translated.2.1 (update_news 3 (some []) true none ⟨[], 1⟩)
     404 "Item not found" rfl⟩

/-- C8: connection release discipline.  For every handler and every
combination of request body, connection-acquisition outcome and
injected database exception, the number of conn.close calls is exactly
one when a connection was obtained (acquisition reached and
successful) and exactly zero otherwise: no exit path — success,
validation or not-found abort, or database exception — leaves an
obtained connection open or closes it twice. -/
theorem connection_release_discipline (s : Store) (i : Nat) (acq : Bool)
    (e : Option String) (body : Option (List (String × Json))) :
    (db_health_check acq s).closes = (if acq then 1 else 0)
    ∧ (list_news acq e s).closes = (if acq then 1 else 0)
    ∧ (create_news body acq e s).closes =
        (if (create_news body acq e s).acquires = 1 ∧ acq = true then 1 else 0)
    ∧ (update_news i body acq e s).closes =
        (if (update_news i body acq e s).acquires = 1 ∧ acq = true then 1 else 0)
    ∧ (delete_news i acq e s).closes = (if acq then 1 else 0)
    ∧ (index s).closes = 0 := by
  refine ⟨?_, ?_, ?_, ?_, ?_, rfl⟩
  · cases acq <;> rfl
  · cases acq <;> cases e <;> rfl
  · cases body with
    | none => cases acq <;> simp [create_news]
    | some p =>
      cases hl : p.lookup "title" with
      | none => cases acq <;> simp [create_news, hl]
      | some j =>
        cases j with
        | str t =>
          by_cases ht : pyStrip t = ""
          · cases acq <;> simp [create_news, hl, ht]
          · cases acq with
            | false => cases e <;> simp [create_news, hl, ht]
            | true => cases e <;> simp [create_news, hl, ht]
        | null => cases acq <;> simp [create_news, hl]
        | bool x => cases acq <;> simp [create_news, hl]
        | num x => cases acq <;> simp [create_news, hl]
        | arr x => cases acq <;> simp [create_news, hl]
        | obj x => cases acq <;> simp [create_news, hl]
  · cases body with
    | none => cases acq <;> simp [update_news]
    | some p =>
      cases acq with
      | false => simp [update_news]
      | true =>
        cases e with
        | some m => simp [update_news]
        | none =>
          cases hf : findRow i s with
          | none => simp [update_news, hf]
          | some r => simp [update_news, hf]
  · cases acq with
    | false => rfl
    | true =>
      cases e with
      | some m => rfl
      | none =>
        cases hf : findRow i s with
        | none => simp [delete_news, hf]
        | some r => simp [delete_news, hf]

/-- C9: create result shape.  For a JSON body whose title is a string
non-empty after stripping surrounding whitespace, POST /news answers
201 with the store-assigned id, the stripped title, and the supplied
content defaulting to the empty string when absent; the stored row
holds exactly these values and the next id advances. -/
theorem create_news_success (s : Store) (p : List (String × Json)) (t : String)
    (hvt : p.lookup "title" = some (.str t)) (ht : pyStrip t ≠ "") :
    create_news (some p) true none s =
      ⟨.json 201 (.obj [("id", .num s.nextId), ("title", .str (pyStrip t)),
                        ("content", (p.lookup "content").getD (.str ""))]),
       ⟨s.rows ++ [⟨s.nextId, .str (pyStrip t), (p.lookup "content").getD (.str "")⟩],
        s.nextId + 1⟩, 1, 1, 1, 0⟩ := by
  simp [create_news, hvt, ht]

/-- Witness for create_news_success: the spec example — creating with
title Hello and no content answers 201 with id 1, title Hello, and
empty content. -/
theorem create_news_success_witness :
    create_news (some [("title", .str "Hello")]) true none ⟨[], 1⟩ =
      ⟨.json 201 (.obj [("id", .num 1), ("title", .str "Hello"), ("content", .str "")]),
       ⟨[⟨1, .str "Hello", .str ""⟩], 2⟩, 1, 1, 1, 0⟩ :=
  create_news_success ⟨[], 1⟩ [("title", .str "Hello")] "Hello" rfl (by decide)

/-- C10: content is never type-checked.  With a title passing
validation, create accepts any JSON value as content — number, object,
array, boolean or null — and binds it unchanged into the INSERT, so
the 201 response and the stored row carry exactly that value; and
update binds whatever content value its body supplies into the UPDATE
without any check. -/
theorem content_never_type_checked (s s2 : Store) (p q : List (String × Json))
    (t : String) (v : Json) (i : Nat) (r : Row)
    (hvt : p.lookup "title" = some (.str t)) (ht : pyStrip t ≠ "")
    (hvc : p.lookup "content" = some v)
    (hf : findRow i s2 = some r) (hqc : q.lookup "content" = some v) :
    create_news (some p) true none s =
      ⟨.json 201 (.obj [("id", .num s.nextId), ("title", .str (pyStrip t)),
                        ("content", v)]),
       ⟨s.rows ++ [⟨s.nextId, .str (pyStrip t), v⟩], s.nextId + 1⟩, 1, 1, 1, 0⟩
    ∧ (update_news i (some q) true none s2).store =
      ⟨s2.rows.map (fun row => if row.id == i then
          ⟨row.id, (q.lookup "title").getD r.title, v⟩ else row), s2.nextId⟩ := by
  constructor
  · simp [create_news, hvt, ht, hvc]
  · simp [update_news, hf, hqc]

/-- Witness for content_never_type_checked: the number 42 as content
passes create validation and is stored as-is, and an update body
carrying the number 42 as content writes it into the row unchanged. -/
theorem content_never_type_checked_witness :
    create_news (some [("title", .str "T"), ("content", .num 42)]) true none ⟨[], 1⟩ =
      ⟨.json 201 (.obj [("id", .num 1), ("title", .str "T"), ("content", .num 42)]),
       ⟨[⟨1, .str "T", .num 42⟩], 2⟩, 1, 1, 1, 0⟩
    ∧ (update_news 1 (some [("content", .num 42)]) true none
        ⟨[⟨1, .str "T", .str "old"⟩], 2⟩).store = ⟨[⟨1, .str "T", .num 42⟩], 2⟩ :=
  content_never_type_checked ⟨[], 1⟩ ⟨[⟨1, .str "T", .str "old"⟩], 2⟩
    [("title", .str "T"), ("content", .num 42)] [("content", .num 42)]
    "T" (.num 42) 1 ⟨1, .str "T", .str "old"⟩ rfl (by decide) rfl rfl rfl

end NewsApi
